import Mathlib

/-!
Shallow embedding of the order lifecycle of the ecommerce_Jules repository.

The embedded code is `src/server/src/routes/orders.js` (the Express route
handlers for order creation, listing, payment-proof upload, payment-status
and delivery-status updates) together with the Mongoose schema of the
`Order` model. The Mongo document store is modelled as a `List Order`;
each route handler becomes a pure function from the store and the request
data to the new store paired with an `Except`-style outcome. HTTP status
codes are modelled by the error taxonomy: 400 becomes `validationError`,
403 `authorizationError`, 404 `notFoundError`, and the generic 500 handler
`serverError`.
-/

/-- A line item embedded in an order, from `orderItemSchema`:
productId, name (required), quantity (min 1), price (min 0, modelled as
Nat so nonnegativity is structural), optional image, size and color. -/
structure OrderItem where
  productId : String
  name : String
  quantity : Nat
  price : Nat
  image : Option String := none
  size : Option String := none
  color : Option String := none
deriving DecidableEq

/-- The shipping address subdocument of `orderSchema`: street, city,
zipCode and country are required, state is optional. Fields are `Option
String` so that a missing field can be represented; Mongoose treats an
empty string as failing a `required` check on a String path, which
`present` below captures. -/
structure ShippingAddress where
  street : Option String
  city : Option String
  state : Option String := none
  zipCode : Option String
  country : Option String
deriving DecidableEq

/-- The acting identity resolved by the `auth` middleware: the Mongo user
document reduced to the fields the order routes read (`_id`, `name`,
`email`, `role`). -/
structure Identity where
  id : String
  name : String
  email : String
  role : String
deriving DecidableEq

/-- Error taxonomy of the routes: 400 responses are `validationError`,
403 `authorizationError`, 404 `notFoundError`, and the catch-all 500
response `serverError`. -/
inductive OrderError where
  | validationError
  | authorizationError
  | notFoundError
  | serverError
deriving DecidableEq

/-- An order document, from `orderSchema` in the Order model. -/
structure Order where
  id : String
  userId : String
  clientName : String
  clientEmail : String
  items : List OrderItem
  totalAmount : Nat
  shippingAddress : ShippingAddress
  paymentMethod : String
  paymentProof : Option String := none
  paymentStatus : String := "pending"
  deliveryStatus : String := "pending"
  orderDate : Nat
  updatedAt : Nat
deriving DecidableEq

/-- The `paymentStatus` enum of `orderSchema`. -/
def paymentStatusEnum : List String := ["pending", "approved", "rejected"]

/-- The `deliveryStatus` enum of `orderSchema`. -/
def deliveryStatusEnum : List String :=
  ["pending", "processing", "shipped", "delivered", "cancelled"]

/-- Mongoose `required` on a String path: the value must exist and be a
nonempty string. -/
def present : Option String → Bool
  | some v => v != ""
  | none => false

/-- Validation of one embedded line item by `orderItemSchema` on save:
name required, quantity at least 1 (price min 0 holds structurally). -/
def orderItemValid (it : OrderItem) : Bool :=
  it.name != "" && decide (1 ≤ it.quantity)

/-- Validation of the shipping address subdocument on save: street, city,
zipCode and country required. -/
def shippingAddressValid (a : ShippingAddress) : Bool :=
  present a.street && present a.city && present a.zipCode && present a.country

/-- Document validation run by Mongoose on `order.save()`: required
String paths nonempty, every item valid, the address valid, and both
status fields inside their enums. -/
def orderSchemaValid (o : Order) : Bool :=
  o.clientName != "" && o.clientEmail != "" &&
  o.items.all orderItemValid &&
  shippingAddressValid o.shippingAddress &&
  o.paymentMethod != "" &&
  paymentStatusEnum.contains o.paymentStatus &&
  deliveryStatusEnum.contains o.deliveryStatus

/-- `POST /api/orders` (orders.js lines 60 to 84). The route first checks
truthiness of the request fields (`!items || items.length === 0 ||
!totalAmount || !shippingAddress || !paymentMethod`, a 400 on failure);
a missing or empty items array is modelled as `[]`, and JS truthiness of
the number `totalAmount` makes 0 falsy. It then builds the order with
schema defaults (paymentStatus and deliveryStatus "pending", orderDate
and updatedAt now) and calls `order.save()`: a Mongoose validation
failure there is caught by the catch block and surfaced as the 500
response. -/
def createOrder (store : List Order) (user : Identity) (items : List OrderItem)
    (totalAmount : Nat) (shippingAddress : Option ShippingAddress)
    (paymentMethod : String) (newId : String) (now : Nat) :
    List Order × Except OrderError Order :=
  if items = [] ∨ totalAmount = 0 ∨ shippingAddress = none ∨ paymentMethod = "" then
    (store, Except.error OrderError.validationError)
  else
    match shippingAddress with
    | none => (store, Except.error OrderError.validationError)
    | some addr =>
      if orderSchemaValid
          { id := newId, userId := user.id, clientName := user.name,
            clientEmail := user.email, items := items, totalAmount := totalAmount,
            shippingAddress := addr, paymentMethod := paymentMethod,
            paymentProof := none, paymentStatus := "pending",
            deliveryStatus := "pending", orderDate := now, updatedAt := now } then
        (store ++
          [{ id := newId, userId := user.id, clientName := user.name,
             clientEmail := user.email, items := items, totalAmount := totalAmount,
             shippingAddress := addr, paymentMethod := paymentMethod,
             paymentProof := none, paymentStatus := "pending",
             deliveryStatus := "pending", orderDate := now, updatedAt := now }],
         Except.ok
           { id := newId, userId := user.id, clientName := user.name,
             clientEmail := user.email, items := items, totalAmount := totalAmount,
             shippingAddress := addr, paymentMethod := paymentMethod,
             paymentProof := none, paymentStatus := "pending",
             deliveryStatus := "pending", orderDate := now, updatedAt := now })
      else (store, Except.error OrderError.serverError)

/-- `GET /api/orders/me` (orders.js lines 87 to 95):
`Order.find({ userId: req.user._id }).sort({ orderDate: -1 })`, that is,
the orders owned by the caller sorted by descending order date. -/
def newestFirst (a b : Order) : Prop := b.orderDate ≤ a.orderDate

instance : DecidableRel newestFirst := fun a b => Nat.decLe b.orderDate a.orderDate

instance : IsTotal Order newestFirst := ⟨fun a b => Nat.le_total b.orderDate a.orderDate⟩

instance : IsTrans Order newestFirst := ⟨fun _ _ _ hab hbc => Nat.le_trans hbc hab⟩

/-- The `GET /api/orders/me` handler as a query over the store. -/
def listOrdersForOwner (store : List Order) (user : Identity) : List Order :=
  List.insertionSort newestFirst (store.filter fun o => o.userId == user.id)

/-- The mutation performed by a successful payment-proof upload (orders.js
lines 127 to 129): record the file path, reset paymentStatus to pending,
bump updatedAt. -/
def withProof (o : Order) (filename : String) (now : Nat) : Order :=
  { o with paymentProof := some ("/uploads/payment_proofs/" ++ filename),
           paymentStatus := "pending", updatedAt := now }

/-- `POST /api/orders/:id/payment-proof` (orders.js lines 109 to 137):
look the order up (404 if absent), reject a non-owner (403), reject a
request without a file (400), otherwise apply `withProof` and save.
`order.save()` revalidates the document; a validation failure is caught
and surfaced as the 500 response. -/
def attachPaymentProof (store : List Order) (user : Identity) (orderId : String)
    (file : Option String) (now : Nat) : List Order × Except OrderError Order :=
  match store.find? (fun o => o.id == orderId) with
  | none => (store, Except.error OrderError.notFoundError)
  | some order =>
    if order.userId != user.id then
      (store, Except.error OrderError.authorizationError)
    else
      match file with
      | none => (store, Except.error OrderError.validationError)
      | some filename =>
        if orderSchemaValid (withProof order filename now) then
          (store.map fun o => if o.id == orderId then withProof order filename now else o,
           Except.ok (withProof order filename now))
        else (store, Except.error OrderError.serverError)

/-- The mutation performed by a successful payment-status update
(orders.js lines 155 to 156). -/
def withPaymentStatus (o : Order) (s : String) (now : Nat) : Order :=
  { o with paymentStatus := s, updatedAt := now }

/-- The mutation performed by a successful delivery-status update
(orders.js lines 182 to 183). -/
def withDeliveryStatus (o : Order) (s : String) (now : Nat) : Order :=
  { o with deliveryStatus := s, updatedAt := now }

/-- `PUT /api/orders/:id/payment-status` (orders.js lines 140 to 164),
with the `isAdmin` middleware folded in (a 403 for a non-admin identity
before the handler runs). The handler rejects a missing or out-of-enum
status with a 400 before looking the order up, returns 404 if the order
is absent, otherwise applies `withPaymentStatus` and saves; a Mongoose
validation failure on save is surfaced as the 500 response. -/
def setPaymentStatus (store : List Order) (user : Identity) (orderId : String)
    (status : Option String) (now : Nat) : List Order × Except OrderError Order :=
  if user.role != "admin" then (store, Except.error OrderError.authorizationError)
  else
    match status with
    | none => (store, Except.error OrderError.validationError)
    | some s =>
      if !(paymentStatusEnum.contains s) then
        (store, Except.error OrderError.validationError)
      else
        match store.find? (fun o => o.id == orderId) with
        | none => (store, Except.error OrderError.notFoundError)
        | some order =>
          if orderSchemaValid (withPaymentStatus order s now) then
            (store.map fun o => if o.id == orderId then withPaymentStatus order s now else o,
             Except.ok (withPaymentStatus order s now))
          else (store, Except.error OrderError.serverError)

/-- `PUT /api/orders/:id/delivery-status` (orders.js lines 167 to 191),
the mirror image of the payment-status route over the delivery enum. -/
def setDeliveryStatus (store : List Order) (user : Identity) (orderId : String)
    (status : Option String) (now : Nat) : List Order × Except OrderError Order :=
  if user.role != "admin" then (store, Except.error OrderError.authorizationError)
  else
    match status with
    | none => (store, Except.error OrderError.validationError)
    | some s =>
      if !(deliveryStatusEnum.contains s) then
        (store, Except.error OrderError.validationError)
      else
        match store.find? (fun o => o.id == orderId) with
        | none => (store, Except.error OrderError.notFoundError)
        | some order =>
          if orderSchemaValid (withDeliveryStatus order s now) then
            (store.map fun o => if o.id == orderId then withDeliveryStatus order s now else o,
             Except.ok (withDeliveryStatus order s now))
          else (store, Except.error OrderError.serverError)

/-- The invariant claimed in the data-model section of the spec: the
total amount of an order equals the sum over its line items of quantity
times unit price. -/
def orderTotalInvariant (o : Order) : Prop :=
  o.totalAmount = (o.items.map fun it => it.quantity * it.price).sum

instance (o : Order) : Decidable (orderTotalInvariant o) :=
  inferInstanceAs (Decidable (_ = _))

/-- A sample non-admin identity used to instantiate the theorems. -/
def demoUser : Identity :=
  { id := "u1", name := "Alice", email := "alice@example.com", role := "user" }

/-- A second non-admin identity, distinct from `demoUser`. -/
def otherUser : Identity :=
  { id := "u2", name := "Bob", email := "bob@example.com", role := "user" }

/-- A sample admin identity. -/
def demoAdmin : Identity :=
  { id := "a1", name := "Root", email := "root@example.com", role := "admin" }

/-- A sample line item: quantity 2 at unit price 10. -/
def demoItem : OrderItem :=
  { productId := "p1", name := "Widget", quantity := 2, price := 10 }

/-- A complete shipping address. -/
def demoAddr : ShippingAddress :=
  { street := some "1 Main St", city := some "Kigali",
    zipCode := some "00000", country := some "Rwanda" }

/-- A shipping address present as an object but with the required street
field missing. -/
def demoAddrNoStreet : ShippingAddress :=
  { street := none, city := some "Kigali",
    zipCode := some "00000", country := some "Rwanda" }

/-- A persisted order owned by `demoUser` whose payment was already
approved; its total amount 20 matches 2 times 10. -/
def demoOrder : Order :=
  { id := "o1", userId := "u1", clientName := "Alice",
    clientEmail := "alice@example.com", items := [demoItem], totalAmount := 20,
    shippingAddress := demoAddr, paymentMethod := "Card", paymentProof := none,
    paymentStatus := "approved", deliveryStatus := "pending",
    orderDate := 5, updatedAt := 5 }

/-- A persisted order owned by `otherUser`, newer than `demoOrder`. -/
def demoOrder2 : Order :=
  { id := "o2", userId := "u2", clientName := "Bob",
    clientEmail := "bob@example.com", items := [demoItem], totalAmount := 20,
    shippingAddress := demoAddr, paymentMethod := "Card", paymentProof := none,
    paymentStatus := "pending", deliveryStatus := "pending",
    orderDate := 8, updatedAt := 8 }

/-- The order `createOrder` builds from `demoUser` and `demoItem` with a
total amount of 999, which does not match the item sum 20. -/
def demoBadOrder : Order :=
  { id := "o9", userId := "u1", clientName := "Alice",
    clientEmail := "alice@example.com", items := [demoItem], totalAmount := 999,
    shippingAddress := demoAddr, paymentMethod := "Card", paymentProof := none,
    paymentStatus := "pending", deliveryStatus := "pending",
    orderDate := 0, updatedAt := 0 }

/-- The order `createOrder` persists for `demoUser` from `demoItem` with
total 20 at time 7 under id "o7". -/
def demoCreated : Order :=
  { id := "o7", userId := "u1", clientName := "Alice",
    clientEmail := "alice@example.com", items := [demoItem], totalAmount := 20,
    shippingAddress := demoAddr, paymentMethod := "Card", paymentProof := none,
    paymentStatus := "pending", deliveryStatus := "pending",
    orderDate := 7, updatedAt := 7 }

/-- Saving an order after `withProof` keeps it schema-valid: the mutation
only touches paymentProof (not validated), paymentStatus (set to the
in-enum value "pending") and updatedAt. -/
theorem orderSchemaValid_withProof (o : Order) (f : String) (now : Nat)
    (h : orderSchemaValid o = true) :
    orderSchemaValid (withProof o f now) = true := by
  cases o
  simp only [orderSchemaValid, withProof, Bool.and_eq_true] at h ⊢
  exact ⟨⟨h.1.1, by decide⟩, h.2⟩

/-- Saving an order after `withPaymentStatus` with an in-enum value keeps
it schema-valid. -/
theorem orderSchemaValid_withPaymentStatus (o : Order) (s : String) (now : Nat)
    (hs : paymentStatusEnum.contains s = true) (h : orderSchemaValid o = true) :
    orderSchemaValid (withPaymentStatus o s now) = true := by
  cases o
  simp only [orderSchemaValid, withPaymentStatus, Bool.and_eq_true] at h ⊢
  exact ⟨⟨h.1.1, hs⟩, h.2⟩

/-- Saving an order after `withDeliveryStatus` with an in-enum value
keeps it schema-valid. -/
theorem orderSchemaValid_withDeliveryStatus (o : Order) (s : String) (now : Nat)
    (hs : deliveryStatusEnum.contains s = true) (h : orderSchemaValid o = true) :
    orderSchemaValid (withDeliveryStatus o s now) = true := by
  cases o
  simp only [orderSchemaValid, withDeliveryStatus, Bool.and_eq_true] at h ⊢
  exact ⟨h.1, hs⟩

/-- Claim C5: a non-admin identity calling either status update is
rejected with an authorization error and the store is unchanged. -/
theorem setStatus_requires_admin (store : List Order) (user : Identity)
    (orderId : String) (status : Option String) (now : Nat)
    (h : user.role ≠ "admin") :
    setPaymentStatus store user orderId status now =
      (store, Except.error OrderError.authorizationError) ∧
    setDeliveryStatus store user orderId status now =
      (store, Except.error OrderError.authorizationError) := by
  constructor <;> simp [setPaymentStatus, setDeliveryStatus, h]

/-- Witness for C5 at a concrete non-admin identity and store. -/
theorem setStatus_requires_admin_witness :
    setPaymentStatus [demoOrder] demoUser "o1" (some "approved") 9 =
      ([demoOrder], Except.error OrderError.authorizationError) ∧
    setDeliveryStatus [demoOrder] demoUser "o1" (some "approved") 9 =
      ([demoOrder], Except.error OrderError.authorizationError) :=
  setStatus_requires_admin [demoOrder] demoUser "o1" (some "approved") 9 (by decide)

/-- Claim C3: payment-proof attachment fails with a not-found error when
no order has the given id, and with an authorization error when the found
order is owned by a different identity; in both cases the returned store
is the input store. -/
theorem attachPaymentProof_errors (store : List Order) (user : Identity)
    (oid : String) (file : Option String) (now : Nat) :
    (store.find? (fun q => q.id == oid) = none →
      attachPaymentProof store user oid file now =
        (store, Except.error OrderError.notFoundError)) ∧
    (∀ o, store.find? (fun q => q.id == oid) = some o → o.userId ≠ user.id →
      attachPaymentProof store user oid file now =
        (store, Except.error OrderError.authorizationError)) := by
  constructor
  · intro h
    simp [attachPaymentProof, h]
  · intro o h hne
    simp [attachPaymentProof, h, hne]

/-- Witness for C3: an unknown order id, and an order owned by someone
else. -/
theorem attachPaymentProof_errors_witness :
    attachPaymentProof [demoOrder] demoUser "zzz" (some "p.png") 9 =
      ([demoOrder], Except.error OrderError.notFoundError) ∧
    attachPaymentProof [demoOrder] otherUser "o1" (some "p.png") 9 =
      ([demoOrder], Except.error OrderError.authorizationError) :=
  ⟨(attachPaymentProof_errors [demoOrder] demoUser "zzz" (some "p.png") 9).1 (by decide),
   (attachPaymentProof_errors [demoOrder] otherUser "o1" (some "p.png") 9).2
     demoOrder (by decide) (by decide)⟩

/-- Claim C10: in both status-update routes the enum check on the status
value runs before the order lookup, so a missing or out-of-enum status
yields a validation error even when the order id does not exist in the
store. -/
theorem statusUpdate_validates_before_lookup (store : List Order)
    (user : Identity) (oid : String) (s t : String) (now : Nat)
    (hadmin : user.role = "admin")
    (habsent : store.find? (fun q => q.id == oid) = none)
    (hs : s ∉ paymentStatusEnum) (ht : t ∉ deliveryStatusEnum) :
    setPaymentStatus store user oid none now =
      (store, Except.error OrderError.validationError) ∧
    setPaymentStatus store user oid (some s) now =
      (store, Except.error OrderError.validationError) ∧
    setDeliveryStatus store user oid none now =
      (store, Except.error OrderError.validationError) ∧
    setDeliveryStatus store user oid (some t) now =
      (store, Except.error OrderError.validationError) := by
  refine ⟨?_, ?_, ?_, ?_⟩ <;>
    simp [setPaymentStatus, setDeliveryStatus, hadmin, hs, ht,
      List.contains, List.elem_eq_mem]

/-- Witness for C10: an admin, a store without the requested id, and
out-of-enum status values. -/
theorem statusUpdate_validates_before_lookup_witness :
    setPaymentStatus [demoOrder] demoAdmin "zzz" none 9 =
      ([demoOrder], Except.error OrderError.validationError) ∧
    setPaymentStatus [demoOrder] demoAdmin "zzz" (some "shipped") 9 =
      ([demoOrder], Except.error OrderError.validationError) ∧
    setDeliveryStatus [demoOrder] demoAdmin "zzz" none 9 =
      ([demoOrder], Except.error OrderError.validationError) ∧
    setDeliveryStatus [demoOrder] demoAdmin "zzz" (some "approved") 9 =
      ([demoOrder], Except.error OrderError.validationError) :=
  statusUpdate_validates_before_lookup [demoOrder] demoAdmin "zzz"
    "shipped" "approved" 9 (by decide) (by decide) (by decide) (by decide)

/-- Claim C2: when the order exists, is owned by the caller, is
schema-valid as stored, and a file is supplied, payment-proof attachment
succeeds, records the upload path in paymentProof, and resets
paymentStatus to "pending" whatever its prior value (no hypothesis
constrains it); the updated order is persisted in the returned store. -/
theorem attachPaymentProof_resets (store : List Order) (user : Identity)
    (oid f : String) (now : Nat) (o : Order)
    (hfind : store.find? (fun q => q.id == oid) = some o)
    (hown : o.userId = user.id)
    (hvalid : orderSchemaValid o = true) :
    attachPaymentProof store user oid (some f) now =
      (store.map fun q => if q.id == oid then withProof o f now else q,
       Except.ok (withProof o f now)) ∧
    (withProof o f now).paymentStatus = "pending" ∧
    (withProof o f now).paymentProof = some ("/uploads/payment_proofs/" ++ f) ∧
    withProof o f now ∈ (attachPaymentProof store user oid (some f) now).1 := by
  have hid := List.find?_some hfind
  simp only [beq_iff_eq] at hid
  have hvalid2 := orderSchemaValid_withProof o f now hvalid
  have hmain : attachPaymentProof store user oid (some f) now =
      (store.map fun q => if q.id == oid then withProof o f now else q,
       Except.ok (withProof o f now)) := by
    simp [attachPaymentProof, hfind, hown, hvalid2]
  refine ⟨hmain, rfl, rfl, ?_⟩
  rw [hmain]
  exact List.mem_map.mpr ⟨o, List.mem_of_find?_eq_some hfind, by simp [hid]⟩

/-- Witness for C2: `demoOrder` has paymentStatus "approved" before the
upload and "pending" after. -/
theorem attachPaymentProof_resets_witness :
    attachPaymentProof [demoOrder] demoUser "o1" (some "proof.png") 9 =
      ([demoOrder].map fun q => if q.id == "o1" then withProof demoOrder "proof.png" 9 else q,
       Except.ok (withProof demoOrder "proof.png" 9)) ∧
    (withProof demoOrder "proof.png" 9).paymentStatus = "pending" ∧
    (withProof demoOrder "proof.png" 9).paymentProof =
      some ("/uploads/payment_proofs/" ++ "proof.png") ∧
    withProof demoOrder "proof.png" 9 ∈
      (attachPaymentProof [demoOrder] demoUser "o1" (some "proof.png") 9).1 :=
  attachPaymentProof_resets [demoOrder] demoUser "o1" "proof.png" 9 demoOrder
    (by decide) (by decide) (by decide)

/-- Claim C4: for both status-update routes called by an admin, an
out-of-enum status value is rejected with a validation error, an in-enum
value on an absent order id is rejected with a not-found error, and on
success the updated order carries exactly the requested status value. -/
theorem statusUpdate_enum_and_lookup (store : List Order) (user : Identity)
    (oid : String) (s t : String) (now : Nat)
    (hadmin : user.role = "admin") :
    (s ∉ paymentStatusEnum →
      setPaymentStatus store user oid (some s) now =
        (store, Except.error OrderError.validationError)) ∧
    (s ∈ paymentStatusEnum → store.find? (fun q => q.id == oid) = none →
      setPaymentStatus store user oid (some s) now =
        (store, Except.error OrderError.notFoundError)) ∧
    (∀ store1 o1, setPaymentStatus store user oid (some s) now =
        (store1, Except.ok o1) → o1.paymentStatus = s) ∧
    (t ∉ deliveryStatusEnum →
      setDeliveryStatus store user oid (some t) now =
        (store, Except.error OrderError.validationError)) ∧
    (t ∈ deliveryStatusEnum → store.find? (fun q => q.id == oid) = none →
      setDeliveryStatus store user oid (some t) now =
        (store, Except.error OrderError.notFoundError)) ∧
    (∀ store2 o2, setDeliveryStatus store user oid (some t) now =
        (store2, Except.ok o2) → o2.deliveryStatus = t) := by
  refine ⟨?_, ?_, ?_, ?_, ?_, ?_⟩
  · intro h
    simp [setPaymentStatus, hadmin, List.contains, List.elem_eq_mem, h]
  · intro hmem hnone
    simp [setPaymentStatus, hadmin, List.contains, List.elem_eq_mem, hmem, hnone]
  · intro store1 o1 h
    unfold setPaymentStatus at h
    rw [hadmin] at h
    simp only [bne_self_eq_false, Bool.false_eq_true, if_false] at h
    split at h
    · exact absurd h (by simp)
    · split at h
      · exact absurd h (by simp)
      · split at h
        · injection h with hA hB
          injection hB with hC
          rw [← hC]
          rfl
        · exact absurd h (by simp)
  · intro h
    simp [setDeliveryStatus, hadmin, List.contains, List.elem_eq_mem, h]
  · intro hmem hnone
    simp [setDeliveryStatus, hadmin, List.contains, List.elem_eq_mem, hmem, hnone]
  · intro store2 o2 h
    unfold setDeliveryStatus at h
    rw [hadmin] at h
    simp only [bne_self_eq_false, Bool.false_eq_true, if_false] at h
    split at h
    · exact absurd h (by simp)
    · split at h
      · exact absurd h (by simp)
      · split at h
        · injection h with hA hB
          injection hB with hC
          rw [← hC]
          rfl
        · exact absurd h (by simp)

/-- Witness for C4: concrete rejections and a concrete success for each
route. -/
theorem statusUpdate_enum_and_lookup_witness :
    setPaymentStatus [demoOrder] demoAdmin "o1" (some "shipped") 9 =
      ([demoOrder], Except.error OrderError.validationError) ∧
    setPaymentStatus [demoOrder] demoAdmin "zzz" (some "rejected") 9 =
      ([demoOrder], Except.error OrderError.notFoundError) ∧
    (withPaymentStatus demoOrder "rejected" 9).paymentStatus = "rejected" ∧
    setDeliveryStatus [demoOrder] demoAdmin "o1" (some "approved") 9 =
      ([demoOrder], Except.error OrderError.validationError) ∧
    setDeliveryStatus [demoOrder] demoAdmin "zzz" (some "shipped") 9 =
      ([demoOrder], Except.error OrderError.notFoundError) ∧
    (withDeliveryStatus demoOrder "shipped" 9).deliveryStatus = "shipped" := by
  refine ⟨?_, ?_, ?_, ?_, ?_, ?_⟩
  · exact (statusUpdate_enum_and_lookup [demoOrder] demoAdmin "o1" "shipped" "x" 9
      (by decide)).1 (by decide)
  · exact (statusUpdate_enum_and_lookup [demoOrder] demoAdmin "zzz" "rejected" "x" 9
      (by decide)).2.1 (by decide) (by decide)
  · exact (statusUpdate_enum_and_lookup [demoOrder] demoAdmin "o1" "rejected" "x" 9
      (by decide)).2.2.1 [withPaymentStatus demoOrder "rejected" 9]
      (withPaymentStatus demoOrder "rejected" 9) rfl
  · exact (statusUpdate_enum_and_lookup [demoOrder] demoAdmin "o1" "x" "approved" 9
      (by decide)).2.2.2.1 (by decide)
  · exact (statusUpdate_enum_and_lookup [demoOrder] demoAdmin "zzz" "x" "shipped" 9
      (by decide)).2.2.2.2.1 (by decide) (by decide)
  · exact (statusUpdate_enum_and_lookup [demoOrder] demoAdmin "o1" "x" "shipped" 9
      (by decide)).2.2.2.2.2 [withDeliveryStatus demoOrder "shipped" 9]
      (withDeliveryStatus demoOrder "shipped" 9) rfl

/-- Claim C7: the my-orders listing contains only orders owned by the
caller, is a permutation of the sub-multiset of the store owned by the
caller, and is sorted newest first by order date. -/
theorem listOrdersForOwner_spec (store : List Order) (user : Identity) :
    (∀ o ∈ listOrdersForOwner store user, o.userId = user.id) ∧
    (listOrdersForOwner store user).Perm
      (store.filter fun o => o.userId == user.id) ∧
    List.Sorted newestFirst (listOrdersForOwner store user) := by
  refine ⟨?_, List.perm_insertionSort _ _, List.sorted_insertionSort _ _⟩
  intro o ho
  have hm : o ∈ store.filter (fun o => o.userId == user.id) :=
    (List.perm_insertionSort newestFirst
      (store.filter fun o => o.userId == user.id)).mem_iff.mp ho
  exact eq_of_beq (List.mem_filter.mp hm).2

/-- Witness for C7 on a two-user store. -/
theorem listOrdersForOwner_spec_witness :
    (listOrdersForOwner [demoOrder, demoOrder2] demoUser).Perm
      ([demoOrder, demoOrder2].filter fun o => o.userId == demoUser.id) ∧
    List.Sorted newestFirst (listOrdersForOwner [demoOrder, demoOrder2] demoUser) :=
  ⟨(listOrdersForOwner_spec [demoOrder, demoOrder2] demoUser).2.1,
   (listOrdersForOwner_spec [demoOrder, demoOrder2] demoUser).2.2⟩

/-- Claim C8: every order persisted by `createOrder` starts with both
status fields "pending" and no payment proof, is owned by the acting
identity, and carries the identity name and email denormalized onto the
order; the order is in the returned store. -/
theorem createOrder_initial_state (store : List Order) (user : Identity)
    (items : List OrderItem) (totalAmount : Nat)
    (shippingAddress : Option ShippingAddress) (paymentMethod newId : String)
    (now : Nat) (store1 : List Order) (o1 : Order)
    (h : createOrder store user items totalAmount shippingAddress
        paymentMethod newId now = (store1, Except.ok o1)) :
    o1.paymentStatus = "pending" ∧ o1.deliveryStatus = "pending" ∧
    o1.userId = user.id ∧ o1.clientName = user.name ∧
    o1.clientEmail = user.email ∧ o1.paymentProof = none ∧ o1 ∈ store1 := by
  unfold createOrder at h
  split at h
  · exact absurd h (by simp)
  · split at h
    · exact absurd h (by simp)
    · split at h
      · injection h with hA hB
        injection hB with hC
        subst hC
        refine ⟨rfl, rfl, rfl, rfl, rfl, rfl, ?_⟩
        rw [← hA]
        exact List.mem_append.mpr (Or.inr (List.mem_singleton.mpr rfl))
      · exact absurd h (by simp)

/-- Witness for C8: a concrete successful creation. -/
theorem createOrder_initial_state_witness :
    demoCreated.paymentStatus = "pending" ∧ demoCreated.deliveryStatus = "pending" ∧
    demoCreated.userId = demoUser.id ∧ demoCreated.clientName = demoUser.name ∧
    demoCreated.clientEmail = demoUser.email ∧ demoCreated.paymentProof = none ∧
    demoCreated ∈ [demoCreated] :=
  createOrder_initial_state [] demoUser [demoItem] 20 (some demoAddr) "Card"
    "o7" 7 [demoCreated] demoCreated rfl

/-- Counterexample to C1 as stated: `createOrder` accepts a request whose
totalAmount 999 differs from the item sum 20 and persists it, so the
claimed invariant does not hold of every persisted order. -/
theorem totalAmount_invariant_counterexample :
    (createOrder [] demoUser [demoItem] 999 (some demoAddr) "Card" "o9" 0).2 =
      Except.ok demoBadOrder ∧
    demoBadOrder ∈ (createOrder [] demoUser [demoItem] 999 (some demoAddr)
      "Card" "o9" 0).1 ∧
    ¬ orderTotalInvariant demoBadOrder :=
  ⟨rfl, by decide, by decide⟩

/-- Membership in a store in which the order with the given id was
replaced by `u`: an element is `u` or was already in the store. -/
theorem mem_update_store {store : List Order} {oid : String} {u o : Order}
    (h : o ∈ store.map fun q => if q.id == oid then u else q) :
    o = u ∨ o ∈ store := by
  rcases List.mem_map.mp h with ⟨p, hp, he⟩
  by_cases hq : (p.id == oid) = true
  · left
    rw [← he, if_pos hq]
  · right
    rw [← he, if_neg hq]
    exact hp

/-- Amended C1: the three update operations preserve the total-amount
invariant (none of them touches items or totalAmount), but `createOrder`
does not establish it, as the counterexample shows. -/
theorem updates_preserve_total_invariant (store : List Order) (user : Identity)
    (oid : String) (st file : Option String) (now : Nat)
    (hinv : ∀ o ∈ store, orderTotalInvariant o) :
    (∀ o ∈ (setPaymentStatus store user oid st now).1, orderTotalInvariant o) ∧
    (∀ o ∈ (setDeliveryStatus store user oid st now).1, orderTotalInvariant o) ∧
    (∀ o ∈ (attachPaymentProof store user oid file now).1, orderTotalInvariant o) := by
  refine ⟨?_, ?_, ?_⟩
  · intro o ho
    unfold setPaymentStatus at ho
    split at ho
    · exact hinv o ho
    · split at ho
      · exact hinv o ho
      · split at ho
        · exact hinv o ho
        · split at ho
          · exact hinv o ho
          · rename_i order heq
            split at ho
            · rcases mem_update_store ho with rfl | hmem
              · exact hinv order (List.mem_of_find?_eq_some heq)
              · exact hinv o hmem
            · exact hinv o ho
  · intro o ho
    unfold setDeliveryStatus at ho
    split at ho
    · exact hinv o ho
    · split at ho
      · exact hinv o ho
      · split at ho
        · exact hinv o ho
        · split at ho
          · exact hinv o ho
          · rename_i order heq
            split at ho
            · rcases mem_update_store ho with rfl | hmem
              · exact hinv order (List.mem_of_find?_eq_some heq)
              · exact hinv o hmem
            · exact hinv o ho
  · intro o ho
    unfold attachPaymentProof at ho
    split at ho
    · exact hinv o ho
    · rename_i order heq
      split at ho
      · exact hinv o ho
      · split at ho
        · exact hinv o ho
        · split at ho
          · rcases mem_update_store ho with rfl | hmem
            · exact hinv order (List.mem_of_find?_eq_some heq)
            · exact hinv o hmem
          · exact hinv o ho

/-- Witness for the amended C1 on a store satisfying the invariant. -/
theorem updates_preserve_total_invariant_witness :
    orderTotalInvariant (withPaymentStatus demoOrder "approved" 9) :=
  (updates_preserve_total_invariant [demoOrder] demoAdmin "o1" (some "approved")
    (some "p.png") 9 (by decide)).1 (withPaymentStatus demoOrder "approved" 9)
    (by decide)

/-- Counterexample to C6 as stated: a request whose shippingAddress is
present but lacks the required street field passes the route-level
truthiness check, fails Mongoose validation inside `order.save()`, and is
surfaced by the catch block as the generic 500 server error, not as the
validation error the claim names. No order is persisted. -/
theorem createOrder_missing_street_counterexample :
    createOrder [] demoUser [demoItem] 20 (some demoAddrNoStreet) "Card" "o1" 0 =
      ([], Except.error OrderError.serverError) ∧
    (createOrder [] demoUser [demoItem] 20 (some demoAddrNoStreet) "Card" "o1" 0).2 ≠
      Except.error OrderError.validationError := by
  refine ⟨rfl, ?_⟩
  intro hcontra
  have h2 : (createOrder [] demoUser [demoItem] 20 (some demoAddrNoStreet)
      "Card" "o1" 0).2 = Except.error OrderError.serverError := rfl
  rw [h2] at hcontra
  exact OrderError.noConfusion (Except.error.inj hcontra)

/-- Amended C6: an empty items list (or an entirely absent shipping
address) is rejected with the validation error; a shipping address that
is present but fails a required-field check makes the save fail, which
the route surfaces as the generic server error; in every such case no
order is persisted. -/
theorem createOrder_rejects_invalid (store : List Order) (user : Identity)
    (items : List OrderItem) (totalAmount : Nat)
    (shippingAddress : Option ShippingAddress) (paymentMethod newId : String)
    (now : Nat) :
    (items = [] → createOrder store user items totalAmount shippingAddress
        paymentMethod newId now = (store, Except.error OrderError.validationError)) ∧
    (shippingAddress = none → createOrder store user items totalAmount
        shippingAddress paymentMethod newId now =
        (store, Except.error OrderError.validationError)) ∧
    (∀ a, shippingAddress = some a → shippingAddressValid a = false →
      (createOrder store user items totalAmount shippingAddress paymentMethod
        newId now).1 = store ∧
      ((createOrder store user items totalAmount shippingAddress paymentMethod
          newId now).2 = Except.error OrderError.validationError ∨
        (createOrder store user items totalAmount shippingAddress paymentMethod
          newId now).2 = Except.error OrderError.serverError)) := by
  refine ⟨?_, ?_, ?_⟩
  · intro h
    simp [createOrder, h]
  · intro h
    simp [createOrder, h]
  · intro a ha hbad
    subst ha
    unfold createOrder
    split
    · exact ⟨rfl, Or.inl rfl⟩
    · have hv : orderSchemaValid
          { id := newId, userId := user.id, clientName := user.name,
            clientEmail := user.email, items := items, totalAmount := totalAmount,
            shippingAddress := a, paymentMethod := paymentMethod,
            paymentProof := none, paymentStatus := "pending",
            deliveryStatus := "pending", orderDate := now, updatedAt := now } = false := by
        simp [orderSchemaValid, hbad]
      refine ⟨?_, Or.inr ?_⟩ <;> simp [hv]

/-- Witness for the amended C6: empty items are rejected with the
validation error, and a present-but-incomplete address leaves the store
unchanged with one of the two error outcomes. -/
theorem createOrder_rejects_invalid_witness :
    createOrder [] demoUser [] 20 (some demoAddr) "Card" "o1" 0 =
      ([], Except.error OrderError.validationError) ∧
    (createOrder [] demoUser [demoItem] 20 (some demoAddrNoStreet) "Card"
      "o1" 0).1 = [] ∧
    ((createOrder [] demoUser [demoItem] 20 (some demoAddrNoStreet) "Card"
        "o1" 0).2 = Except.error OrderError.validationError ∨
      (createOrder [] demoUser [demoItem] 20 (some demoAddrNoStreet) "Card"
        "o1" 0).2 = Except.error OrderError.serverError) := by
  refine ⟨(createOrder_rejects_invalid [] demoUser [] 20 (some demoAddr)
    "Card" "o1" 0).1 rfl, ?_, ?_⟩
  · exact ((createOrder_rejects_invalid [] demoUser [demoItem] 20
      (some demoAddrNoStreet) "Card" "o1" 0).2.2 demoAddrNoStreet rfl (by decide)).1
  · exact ((createOrder_rejects_invalid [] demoUser [demoItem] 20
      (some demoAddrNoStreet) "Card" "o1" 0).2.2 demoAddrNoStreet rfl (by decide)).2

/-- Filtering away the updated id commutes with the store update: orders
with a different id are untouched. -/
theorem filter_ne_of_update (store : List Order) (oid : String) (u : Order)
    (hu : (u.id == oid) = true) :
    (store.map fun q => if q.id == oid then u else q).filter
        (fun q => !(q.id == oid)) =
      store.filter (fun q => !(q.id == oid)) := by
  induction store with
  | nil => rfl
  | cons a l ih =>
    rw [List.map_cons, List.filter_cons, List.filter_cons]
    cases hb : (a.id == oid) with
    | true =>
      rw [if_pos rfl, hu, Bool.not_true,
        if_neg (fun hcontra => Bool.noConfusion hcontra),
        if_neg (fun hcontra => Bool.noConfusion hcontra)]
      exact ih
    | false =>
      have hhead : (if (false = true) then u else a) = a :=
        if_neg (fun hcontra => Bool.noConfusion hcontra)
      rw [hhead, hb, Bool.not_false, if_pos rfl, if_pos rfl, ih]

/-- Claim C9: a successful payment-status update changes only
paymentStatus and updatedAt of the targeted order (all other fields keep
the stored values) and leaves every order with a different id untouched;
symmetrically, a successful delivery-status update changes only
deliveryStatus and updatedAt. -/
theorem statusUpdate_frame (store : List Order) (user : Identity) (oid : String)
    (s t : String) (now : Nat) (o : Order) (store1 store2 : List Order)
    (o1 o2 : Order)
    (hfind : store.find? (fun q => q.id == oid) = some o)
    (hp : setPaymentStatus store user oid (some s) now = (store1, Except.ok o1))
    (hd : setDeliveryStatus store user oid (some t) now = (store2, Except.ok o2)) :
    (o1.id = o.id ∧ o1.userId = o.userId ∧ o1.clientName = o.clientName ∧
     o1.clientEmail = o.clientEmail ∧ o1.items = o.items ∧
     o1.totalAmount = o.totalAmount ∧ o1.shippingAddress = o.shippingAddress ∧
     o1.paymentMethod = o.paymentMethod ∧ o1.paymentProof = o.paymentProof ∧
     o1.deliveryStatus = o.deliveryStatus ∧ o1.paymentStatus = s ∧
     o1.updatedAt = now) ∧
    store1.filter (fun q => !(q.id == oid)) = store.filter (fun q => !(q.id == oid)) ∧
    (o2.id = o.id ∧ o2.userId = o.userId ∧ o2.clientName = o.clientName ∧
     o2.clientEmail = o.clientEmail ∧ o2.items = o.items ∧
     o2.totalAmount = o.totalAmount ∧ o2.shippingAddress = o.shippingAddress ∧
     o2.paymentMethod = o.paymentMethod ∧ o2.paymentProof = o.paymentProof ∧
     o2.paymentStatus = o.paymentStatus ∧ o2.deliveryStatus = t ∧
     o2.updatedAt = now) ∧
    store2.filter (fun q => !(q.id == oid)) = store.filter (fun q => !(q.id == oid)) := by
  have hid := List.find?_some hfind
  unfold setPaymentStatus at hp
  unfold setDeliveryStatus at hd
  split at hp
  · exact absurd hp (by simp)
  · split at hp
    · exact absurd hp (by simp)
    · rename_i s1 heqs
      injection heqs with hss
      subst hss
      split at hp
      · exact absurd hp (by simp)
      · split at hp
        · exact absurd hp (by simp)
        · rename_i order heq
          rw [hfind] at heq
          injection heq with horder
          subst horder
          split at hp
          · injection hp with hA hB
            injection hB with hC
            subst hC
            subst hA
            split at hd
            · exact absurd hd (by simp)
            · split at hd
              · exact absurd hd (by simp)
              · rename_i t1 heqt
                injection heqt with htt
                subst htt
                split at hd
                · exact absurd hd (by simp)
                · split at hd
                  · exact absurd hd (by simp)
                  · rename_i order2 heq2
                    rw [hfind] at heq2
                    injection heq2 with horder2
                    subst horder2
                    split at hd
                    · injection hd with hA2 hB2
                      injection hB2 with hC2
                      subst hC2
                      subst hA2
                      refine ⟨⟨rfl, rfl, rfl, rfl, rfl, rfl, rfl, rfl, rfl, rfl,
                          rfl, rfl⟩,
                        filter_ne_of_update store oid _ hid,
                        ⟨rfl, rfl, rfl, rfl, rfl, rfl, rfl, rfl, rfl, rfl,
                          rfl, rfl⟩,
                        filter_ne_of_update store oid _ hid⟩
                    · exact absurd hd (by simp)
          · exact absurd hp (by simp)

/-- Witness for C9 on a two-order store: the untouched fields and the
other order are preserved by both updates. -/
theorem statusUpdate_frame_witness :
    (withPaymentStatus demoOrder "approved" 9).deliveryStatus =
      demoOrder.deliveryStatus ∧
    [withPaymentStatus demoOrder "approved" 9, demoOrder2].filter
        (fun q => !(q.id == "o1")) =
      [demoOrder, demoOrder2].filter (fun q => !(q.id == "o1")) ∧
    (withDeliveryStatus demoOrder "shipped" 9).paymentStatus =
      demoOrder.paymentStatus ∧
    [withDeliveryStatus demoOrder "shipped" 9, demoOrder2].filter
        (fun q => !(q.id == "o1")) =
      [demoOrder, demoOrder2].filter (fun q => !(q.id == "o1")) := by
  have h := statusUpdate_frame [demoOrder, demoOrder2] demoAdmin "o1"
    "approved" "shipped" 9 demoOrder
    [withPaymentStatus demoOrder "approved" 9, demoOrder2]
    [withDeliveryStatus demoOrder "shipped" 9, demoOrder2]
    (withPaymentStatus demoOrder "approved" 9)
    (withDeliveryStatus demoOrder "shipped" 9) (by decide) rfl rfl
  obtain ⟨⟨_, _, _, _, _, _, _, _, _, hds, _, _⟩, hf1,
    ⟨_, _, _, _, _, _, _, _, _, hps, _, _⟩, hf2⟩ := h
  exact ⟨hds, hf1, hps, hf2⟩
